import Mathlib

/-!
Shallow embedding of the trace-analysis subsystem of `src/trace_analyzer.py`
(classes `PlaywrightTrace` / `EnhancedTraceAnalyzer` and the free function
`analyze_trace`).

Modelling conventions:
* A parsed JSON trace event is a record of the optional keys the code reads
  (`type`, `method`, `params`, `timestamp`, `duration`, `error`, `text`,
  `sessionId`); an absent key is `none`.
* `json.loads` on one line of a `.trace` member is modelled by a `Line`
  carrying the raw text together with the decode result (`none` for a
  `json.JSONDecodeError`).
* Python exceptions are modelled with `Except String`; float division is
  modelled with exact rationals (`ℚ`).
* Numbers in events are modelled as `Int` (timestamps and durations in the
  traces are integers).
-/

namespace BrowserUseTrace

/-- A viewport mapping as produced by `setViewportSize` params. -/
structure Viewport where
  width : Int := 0
  height : Int := 0
  deriving DecidableEq, Repr, Inhabited

/-- The `error` mapping of an event (`message`, optional `name` / `stack`). -/
structure ErrorInfo where
  name : Option String := none
  message : Option String := none
  stack : Option String := none
  deriving DecidableEq, Repr, Inhabited

/-- The `params` mapping of an event, restricted to the keys the analyzer
reads (`selector`, `url`, `method`, `status`, `timing`, `viewport`,
`userAgent`); all optional. -/
structure Params where
  selector : Option String := none
  url : Option String := none
  method : Option String := none
  status : Option Int := none
  timing : Option Int := none
  viewport : Option Viewport := none
  userAgent : Option String := none
  deriving DecidableEq, Repr, Inhabited

/-- One parsed JSON record of a `.trace` / `trace.network` member, restricted
to the keys the analyzer reads; an absent key is `none`. -/
structure TraceEvent where
  type : Option String := none
  method : Option String := none
  params : Option Params := none
  timestamp : Option Int := none
  duration : Option Int := none
  error : Option ErrorInfo := none
  text : Option String := none
  sessionId : Option String := none
  deriving DecidableEq, Repr, Inhabited

/-- One line of a newline-split member: the raw text plus the result of
`json.loads` on it (`none` models `json.JSONDecodeError`). -/
structure Line where
  raw : String
  parsed : Option TraceEvent := none
  deriving DecidableEq, Repr, Inhabited

/-! ## Basic model: `PlaywrightTrace` -/

/-- One entry of `PlaywrightTrace.actions` as built by `_process_event`. -/
structure ActionRecord where
  type : String
  timestamp : Int
  duration : Int
  params : Params
  success : Bool
  error : Option ErrorInfo
  deriving DecidableEq, Repr, Inhabited

/-- One entry of `PlaywrightTrace.network_requests` as built by
`_process_har`. -/
structure NetworkRecord where
  url : Option String
  method : Option String
  status : Option Int
  statusText : Option String
  duration : Option Int
  failure : Bool
  deriving DecidableEq, Repr, Inhabited

/-- The mutable state of a `PlaywrightTrace` instance. -/
structure PlaywrightTraceState where
  actions : List ActionRecord := []
  network_requests : List NetworkRecord := []
  console_logs : List String := []
  errors : List String := []
  deriving DecidableEq, Repr, Inhabited

/-- Rendering of a Python `str(error_dict)`: used only when the `error`
mapping of an `error`-type event has no `message` key. -/
def errorInfoStr (e : ErrorInfo) : String :=
  "error " ++ (e.name.getD "") ++ " " ++ (e.message.getD "") ++ " " ++ (e.stack.getD "")

/-- Embeds `PlaywrightTrace._process_event`: categorize one trace event. -/
def process_event (st : PlaywrightTraceState) (event : TraceEvent) : PlaywrightTraceState :=
  match event.type with
  | none => st
  | some event_type =>
    if event_type = "before" ∨ event_type = "after" then
      match event.method, event.params with
      | some m, some p =>
        { st with actions := st.actions ++ [{
            type := m
            timestamp := event.timestamp.getD 0
            duration := event.duration.getD 0
            params := p
            success := decide (event_type = "after") && event.error.isNone
            error := event.error }] }
      | _, _ => st
    else if event_type = "console" then
      match event.text with
      | some t => { st with console_logs := st.console_logs ++ [t] }
      | none => st
    else if event_type = "error" then
      match event.error with
      | some err => { st with errors := st.errors ++ [err.message.getD (errorInfoStr err)] }
      | none => st
    else st

/-- Python's `line.strip()` falsiness: the line is empty or all whitespace. -/
def is_blank (s : String) : Bool := s.data.all Char.isWhitespace

/-- One line of `_parse_trace_file`'s inner loop: skip blank lines, process a
decodable line, log a decode failure and continue. -/
def parse_line (st : PlaywrightTraceState) (l : Line) : PlaywrightTraceState :=
  if is_blank l.raw then st
  else
    match l.parsed with
    | some event => process_event st event
    | none => { st with errors := st.errors ++ ["Failed to parse trace event: " ++ l.raw] }

/-- The line loop of `PlaywrightTrace._parse_trace_file` over one `.trace`
member, in file order. -/
def parse_lines (st : PlaywrightTraceState) (lines : List Line) : PlaywrightTraceState :=
  lines.foldl parse_line st

/-- The `request` mapping of a HAR entry (keys read by `_process_har`). -/
structure HarRequest where
  url : Option String := none
  method : Option String := none
  deriving DecidableEq, Repr, Inhabited

/-- The `response` mapping of a HAR entry (keys read by `_process_har`). -/
structure HarResponse where
  status : Option Int := none
  statusText : Option String := none
  deriving DecidableEq, Repr, Inhabited

/-- One item of `log.entries` in the HAR member. -/
structure HarEntry where
  request : Option HarRequest := none
  response : Option HarResponse := none
  time : Option Int := none
  deriving DecidableEq, Repr, Inhabited

/-- The `log` mapping of a HAR document. -/
structure HarLog where
  entries : Option (List HarEntry) := none
  deriving DecidableEq, Repr, Inhabited

/-- A parsed HAR document (keys read by `_process_har`). -/
structure HarData where
  log : Option HarLog := none
  deriving DecidableEq, Repr, Inhabited

/-- Embeds `PlaywrightTrace._process_har`: map each `log.entries[]` item to one
normalized network request; `failure = response.get('status', 0) >= 400`. -/
def process_har (st : PlaywrightTraceState) (har_data : HarData) : PlaywrightTraceState :=
  match har_data.log with
  | none => st
  | some log =>
    match log.entries with
    | none => st
    | some entries =>
      entries.foldl (fun st entry =>
        let request := entry.request.getD {}
        let response := entry.response.getD {}
        { st with network_requests := st.network_requests ++ [{
            url := request.url
            method := request.method
            status := response.status
            statusText := response.statusText
            duration := entry.time
            failure := decide ((response.status.getD 0) ≥ (400 : Int)) }] }) st

/-- The archive contents seen by `PlaywrightTrace._parse_trace_file`: the
line-split contents of the members ending in `.trace` (in name-list order)
and the parsed first `.har` member when present. -/
structure BasicArchive where
  traceMembers : List (List Line) := []
  harFile : Option HarData := none
  deriving DecidableEq, Repr, Inhabited

/-- Embeds `PlaywrightTrace.parse`: run the line loop over every `.trace` member,
then ingest the first `.har` member if any. -/
def playwright_trace_parse (arch : BasicArchive) : PlaywrightTraceState :=
  let st := arch.traceMembers.foldl parse_lines {}
  match arch.harFile with
  | some har => process_har st har
  | none => st

/-- The `summary` mapping of `analyze_trace`'s result. -/
structure TraceSummary where
  total_actions : Nat
  failed_actions : Nat
  total_requests : Nat
  failed_requests : Nat
  total_errors : Nat
  error_summary : String
  deriving DecidableEq, Repr, Inhabited

/-- The full result mapping of `analyze_trace`. -/
structure AnalyzeTraceResult where
  actions : List ActionRecord
  network_requests : List NetworkRecord
  console_logs : List String
  errors : List String
  summary : TraceSummary
  deriving DecidableEq, Repr, Inhabited

/-- Free function `analyze_trace`: parse the archive and derive the summary
counters. -/
def analyze_trace (arch : BasicArchive) : AnalyzeTraceResult :=
  let trace := playwright_trace_parse arch
  { actions := trace.actions
    network_requests := trace.network_requests
    console_logs := trace.console_logs
    errors := trace.errors
    summary := {
      total_actions := trace.actions.length
      failed_actions := (trace.actions.filter (fun a => !a.success)).length
      total_requests := trace.network_requests.length
      failed_requests := (trace.network_requests.filter (fun r => r.failure)).length
      total_errors := trace.errors.length
      error_summary := if trace.errors = [] then "No errors"
                       else String.intercalate "\n" trace.errors } }

/-! ## Enhanced model: `EnhancedTraceAnalyzer._convert_playwright_trace` -/

/-- The `timing` mapping of a Step; `end_` embeds the source's `end` key
(a Lean keyword). -/
structure Timing where
  start : Int
  end_ : Option Int
  duration : Option Int
  deriving DecidableEq, Repr, Inhabited

/-- The `error_context` of a Step, populated from an `after` event's `error`. -/
structure ErrorContext where
  error_type : String
  message : String
  stack : String
  deriving DecidableEq, Repr, Inhabited

/-- The `visual_state` of a Step: the conversion always emits empty
screenshot-diff / visibility maps and an empty layout-shift list. -/
structure VisualState where
  layout_shifts : List Int := []
  deriving DecidableEq, Repr, Inhabited

/-- The `action_context` of a Step. -/
structure ActionContext where
  element_state : Params
  viewport_state : Option Viewport
  deriving DecidableEq, Repr, Inhabited

/-- One Step of the enhanced trace document. -/
structure Step where
  step_id : Nat
  action : String
  target : String
  timing : Timing
  status : String
  error_context : Option ErrorContext
  visual_state : VisualState := {}
  action_context : ActionContext
  deriving DecidableEq, Repr, Inhabited

/-- The `metadata.browser_info` mapping: the value found for the first
`setViewportSize` / `setUserAgent` event may itself be absent from that
event's params, hence the `Option`s. -/
structure BrowserInfo where
  viewport : Option Viewport
  user_agent : Option String
  deriving DecidableEq, Repr, Inhabited

/-- The `metadata` of the enhanced trace document, derived from the first
event. -/
structure Metadata where
  session_id : String
  timestamp : Int
  browser_info : BrowserInfo
  deriving DecidableEq, Repr, Inhabited

/-- One request of `network.requests`, projected from a
`Network.responseReceived` event's params. -/
structure NetworkRequest where
  url : Option String
  method : Option String
  status : Option Int
  timing : Option Int
  deriving DecidableEq, Repr, Inhabited

/-- The `network` mapping of the enhanced trace document. -/
structure NetworkInfo where
  requests : List NetworkRequest
  deriving DecidableEq, Repr, Inhabited

/-- The `performance.navigation_timing` mapping. -/
structure NavigationTiming where
  dom_complete : Int
  load_complete : Int
  deriving DecidableEq, Repr, Inhabited

/-- The `performance.interaction_timing` mapping; `action_latency` is a Python float
(int division), embedded as an exact rational. -/
structure InteractionTiming where
  time_to_first_interaction : Int
  action_latency : ℚ
  deriving DecidableEq, Repr, Inhabited

/-- The `performance` mapping of the enhanced trace document. -/
structure PerformanceData where
  navigation_timing : NavigationTiming
  interaction_timing : InteractionTiming
  deriving DecidableEq, Repr, Inhabited

/-- The enhanced TraceDocument built by `_convert_playwright_trace`. -/
structure TraceDoc where
  metadata : Metadata
  steps : List Step
  network : NetworkInfo
  performance : PerformanceData
  deriving DecidableEq, Repr, Inhabited

/-- The new `current_step` dict opened by a `before` event, where `newId` is
`len(steps) + 1` after the implicit push. -/
def mk_step (newId : Nat) (event : TraceEvent) (vp : Option Viewport) : Step :=
  { step_id := newId
    action := event.method.getD "unknown"
    target := ((event.params.getD {}).selector).getD ""
    timing := { start := event.timestamp.getD 0, end_ := none, duration := none }
    status := "pending"
    error_context := none
    visual_state := {}
    action_context := { element_state := event.params.getD {}, viewport_state := vp } }

/-- Closing an open step on an `after` event: set `end` / `duration`, decide
the status, and populate `error_context` when the event carries `error`. -/
def close_step (s : Step) (event : TraceEvent) : Step :=
  let endT := event.timestamp.getD 0
  { s with
    timing := { s.timing with end_ := some endT, duration := some (endT - s.timing.start) }
    status := if event.error.isSome then "error" else "success"
    error_context := event.error.map (fun err =>
      { error_type := err.name.getD "unknown"
        message := err.message.getD ""
        stack := err.stack.getD "" }) }

/-- One iteration of the step-extraction loop: the pair is
`(steps, current_step)`. -/
def step_fold (vp : Option Viewport) (acc : List Step × Option Step) (event : TraceEvent) :
    List Step × Option Step :=
  if event.type = some "before" then
    let steps := acc.1 ++ acc.2.toList
    (steps, some (mk_step (steps.length + 1) event vp))
  else if event.type = some "after" then
    match acc.2 with
    | some c => (acc.1, some (close_step c event))
    | none => acc
  else acc

/-- The full step-extraction pass: fold over the events, then push a still
open step at end of stream. -/
def extract_steps (vp : Option Viewport) (trace_events : List TraceEvent) : List Step :=
  let p := trace_events.foldl (step_fold vp) ([], none)
  p.1 ++ p.2.toList

/-- Sum of the known (non-null) step durations. -/
def knownDurationSum (steps : List Step) : Int :=
  (steps.filterMap (fun s => s.timing.duration)).sum

/-- The body of `_convert_playwright_trace` given the first event `e0` of
the stream. -/
def convert_core (e0 : TraceEvent) (trace_events network_events : List TraceEvent) : TraceDoc :=
  let metadata : Metadata := {
    session_id := e0.sessionId.getD "unknown"
    timestamp := e0.timestamp.getD 0
    browser_info := {
      viewport :=
        match trace_events.find? (fun e => e.method == some "setViewportSize") with
        | some e => (e.params.getD {}).viewport
        | none => some { width := 0, height := 0 }
      user_agent :=
        match trace_events.find? (fun e => e.method == some "setUserAgent") with
        | some e => (e.params.getD {}).userAgent
        | none => some "unknown" } }
  let steps := extract_steps metadata.browser_info.viewport trace_events
  { metadata := metadata
    steps := steps
    network := {
      requests :=
        (network_events.filter (fun e => e.method == some "Network.responseReceived")).map
          (fun e => {
            url := (e.params.getD {}).url
            method := (e.params.getD {}).method
            status := (e.params.getD {}).status
            timing := (e.params.getD {}).timing }) }
    performance := {
      navigation_timing := {
        dom_complete :=
          match trace_events.find? (fun e => e.method == some "domcontentloaded") with
          | some e => e.timestamp.getD 0
          | none => 0
        load_complete :=
          match trace_events.find? (fun e => e.method == some "load") with
          | some e => e.timestamp.getD 0
          | none => 0 }
      interaction_timing := {
        time_to_first_interaction :=
          (match trace_events.find? (fun e =>
              e.type == some "before" &&
                (e.method == some "click" || e.method == some "fill")) with
           | some e => e.timestamp.getD 0
           | none => 0) - metadata.timestamp
        action_latency :=
          if steps.isEmpty then 0
          else (knownDurationSum steps : ℚ) / (steps.length : ℚ) } } }

/-- Embeds `EnhancedTraceAnalyzer._convert_playwright_trace`: indexing
`trace_events[0]` on an empty stream raises `IndexError`, modelled as the
error case. -/
def convert_playwright_trace (trace_events network_events : List TraceEvent) :
    Except String TraceDoc :=
  match trace_events.head? with
  | none => Except.error "list index out of range"
  | some e0 => Except.ok (convert_core e0 trace_events network_events)

/-! ## Analysis façade: `analyze_timing` and `analyze_performance` -/

/-- One projected step of `analyze_timing`'s `steps` list. -/
structure TimingStep where
  step_id : Nat
  action : String
  timing : Timing
  deriving DecidableEq, Repr, Inhabited

/-- The `summary` mapping of `analyze_timing`; the average is a Python float
division, embedded as an exact rational. -/
structure TimingSummary where
  total_duration : Int
  average_step_duration : ℚ
  deriving DecidableEq, Repr, Inhabited

/-- The result mapping of `analyze_timing`. -/
structure TimingAnalysis where
  steps : List TimingStep
  performance : PerformanceData
  summary : TimingSummary
  deriving DecidableEq, Repr, Inhabited

/-- Embeds `EnhancedTraceAnalyzer.analyze_timing`: the average divides by the number
of steps with a known duration; Python raises `ZeroDivisionError` when that
count is zero, modelled as the error case. -/
def analyze_timing (doc : TraceDoc) : Except String TimingAnalysis :=
  let known := doc.steps.filter (fun s => s.timing.duration.isSome)
  if known.length = 0 then Except.error "division by zero"
  else Except.ok {
    steps := known.map (fun s => {
      step_id := s.step_id
      action := s.action
      timing := { start := s.timing.start, end_ := s.timing.end_, duration := s.timing.duration } })
    performance := doc.performance
    summary := {
      total_duration := knownDurationSum doc.steps
      average_step_duration := (knownDurationSum doc.steps : ℚ) / (known.length : ℚ) } }

/-- The `total_interaction_time` sum of `analyze_performance`:
`step.get("timing", {}).get("duration", 0)` yields the stored value, which
is `None` for a pending step; Python's `sum` then raises `TypeError`
(`int + NoneType`), modelled as the error case. -/
def sum_step_durations (acc : Int) : List Step → Except String Int
  | [] => Except.ok acc
  | s :: rest =>
    match s.timing.duration with
    | some d => sum_step_durations (acc + d) rest
    | none => Except.error "TypeError"

/-- Embeds `sum(step.get("timing", {}).get("duration", 0) for step in steps)` as a
left-to-right sum that raises at the first `None`. -/
def total_interaction_time (steps : List Step) : Except String Int :=
  sum_step_durations 0 steps

/-- The `metrics_summary` mapping of `analyze_performance`. -/
structure MetricsSummary where
  avg_action_latency : ℚ
  total_interaction_time : Int
  deriving DecidableEq, Repr, Inhabited

/-- The result mapping of `analyze_performance`. -/
structure PerformanceAnalysis where
  navigation_timing : NavigationTiming
  interaction_timing : InteractionTiming
  metrics_summary : MetricsSummary
  deriving DecidableEq, Repr, Inhabited

/-- Embeds `EnhancedTraceAnalyzer.analyze_performance`. -/
def analyze_performance (doc : TraceDoc) : Except String PerformanceAnalysis :=
  (total_interaction_time doc.steps).map (fun total => {
    navigation_timing := doc.performance.navigation_timing
    interaction_timing := doc.performance.interaction_timing
    metrics_summary := {
      avg_action_latency := doc.performance.interaction_timing.action_latency
      total_interaction_time := total } })

/-! ## Loading: `EnhancedTraceAnalyzer._load_trace_data` -/

/-- The nested-directory resolution at the top of `_load_trace_data`,
with the filesystem predicates (`is_dir`, glob results) passed in. -/
def resolve_trace_path (isDir traceZipIsDir : Bool) (globZips : List String)
    (path : String) : Except String String :=
  if isDir then
    if traceZipIsDir then
      match globZips with
      | [] => Except.error "No trace files found"
      | z :: _ => Except.ok z
    else Except.error "Invalid trace directory structure"
  else Except.ok path

/-- The per-member decode loop of `_load_trace_data`: `json.loads` each
non-blank line with no error handling, so the first undecodable line raises
(modelled as the error case). -/
def read_trace_events : List Line → Except String (List TraceEvent)
  | [] => Except.ok []
  | l :: ls =>
    if is_blank l.raw then read_trace_events ls
    else
      match l.parsed with
      | none => Except.error "Expecting value"
      | some e => (read_trace_events ls).map (fun es => e :: es)

/-- The filesystem and archive contents seen by `_load_trace_data`:
directory-shape predicates for the nested-directory rule, plus the
line-split contents of the `trace.trace` and `trace.network` members of the
resolved archive. -/
structure TraceFS where
  path : String := ""
  isDir : Bool := false
  traceZipIsDir : Bool := false
  globZips : List String := []
  traceMember : List Line := []
  networkMember : List Line := []
  deriving DecidableEq, Repr, Inhabited

/-- The memoization state of an `EnhancedTraceAnalyzer` instance
(`self._trace_data`). -/
structure AnalyzerState where
  trace_data : Option TraceDoc := none
  deriving DecidableEq, Repr, Inhabited

deriving instance DecidableEq for Except

/-- Result of one `_load_trace_data` call: the returned-or-raised value, the
instance state afterwards, and how many times the archive was opened and
read during the call. -/
structure LoadResult where
  result : Except String TraceDoc
  state : AnalyzerState
  reads : Nat
  deriving DecidableEq, Repr, Inhabited

/-- Embeds `EnhancedTraceAnalyzer._load_trace_data`: return the cached document if
present; otherwise resolve the path, read and decode both members, convert,
cache on success, and wrap any failure in
`ValueError("Failed to load trace data: ...")` (leaving the cache empty). -/
def load_trace_data (a : AnalyzerState) (fs : TraceFS) : LoadResult :=
  match a.trace_data with
  | some d => { result := Except.ok d, state := a, reads := 0 }
  | none =>
    match resolve_trace_path fs.isDir fs.traceZipIsDir fs.globZips fs.path with
    | Except.error msg =>
      { result := Except.error ("Failed to load trace data: " ++ msg), state := a, reads := 0 }
    | Except.ok _ =>
      match read_trace_events fs.traceMember with
      | Except.error msg =>
        { result := Except.error ("Failed to load trace data: " ++ msg), state := a, reads := 1 }
      | Except.ok trace_events =>
        match read_trace_events fs.networkMember with
        | Except.error msg =>
          { result := Except.error ("Failed to load trace data: " ++ msg), state := a, reads := 1 }
        | Except.ok network_events =>
          match convert_playwright_trace trace_events network_events with
          | Except.error msg =>
            { result := Except.error ("Failed to load trace data: " ++ msg), state := a, reads := 1 }
          | Except.ok d =>
            { result := Except.ok d, state := { trace_data := some d }, reads := 1 }

/-! ## Spec-side definition used for refinement comparison -/

/-- Modelled from the spec's words for `action_latency` ("mean of all known
step durations, 0 if no steps have a duration"): the arithmetic mean over
exactly the steps whose duration is known. -/
def spec_action_latency (steps : List Step) : ℚ :=
  let known : List Int := steps.filterMap (fun s => s.timing.duration)
  if known.length = 0 then 0
  else (known.sum : ℚ) / (known.length : ℚ)

/-! ## Concrete inputs used by the theorems below -/

/-- First event of the spec's concrete Basic-model scenario. -/
def c1e1 : TraceEvent :=
  { type := some "before", method := some "goto"
    params := some { url := some "https://example.com" }, timestamp := some 1000 }

/-- Second event of the spec's concrete Basic-model scenario. -/
def c1e2 : TraceEvent :=
  { type := some "after", method := some "goto"
    params := some { url := some "https://example.com" }, timestamp := some 1500 }

/-- Third event of the spec's concrete Basic-model scenario: an `after`
carrying an `error`. -/
def c1e3 : TraceEvent :=
  { type := some "after", method := some "click"
    params := some { selector := some "#missing-button" }, timestamp := some 2000
    error := some { message := some "Element not found" } }

/-- The scenario's HAR member: two entries with response status 200 and
404. -/
def c1har : HarData :=
  { log := some { entries := some [
      { response := some { status := some 200 } },
      { response := some { status := some 404 } } ] } }

/-- The scenario archive: one `.trace` member holding the three events plus
the HAR member. -/
def c1arch : BasicArchive :=
  { traceMembers := [[
      { raw := "event-line-1", parsed := some c1e1 },
      { raw := "event-line-2", parsed := some c1e2 },
      { raw := "event-line-3", parsed := some c1e3 } ]]
    harFile := some c1har }

/-- Event stream for the Enhanced-model counterexamples: a completed step of
duration 100 followed by a trailing orphan `before`. -/
def c3events : List TraceEvent :=
  [ { type := some "before", method := some "goto", timestamp := some 0 },
    { type := some "after", timestamp := some 100 },
    { type := some "before", method := some "click", timestamp := some 200 } ]

/-- The TraceDocument built from `c3events`. -/
def c3doc : TraceDoc := (convert_playwright_trace c3events []).toOption.getD default

/-- Event stream of the pairing scenario: `before(goto, t=0)` then
`after(t=100)` with no error. -/
def c5events : List TraceEvent :=
  [ { type := some "before", method := some "goto", timestamp := some 0 },
    { type := some "after", timestamp := some 100 } ]

/-- A concrete step, used to instantiate the universally quantified
pairing theorem. -/
def sample_step : Step := mk_step 1 { type := some "before" } none

/-- A concrete `after` event with no `error` key. -/
def c5after : TraceEvent := { type := some "after", timestamp := some 100 }

/-- A concrete trailing `before` event. -/
def c6before : TraceEvent :=
  { type := some "before", method := some "goto", timestamp := some 0 }

/-- A TraceDocument whose only step is an orphaned (pending) step with null
duration. -/
def orphan_doc : TraceDoc := (convert_playwright_trace [c6before] []).toOption.getD default

/-- A non-blank line on which `json.loads` fails. -/
def c7bad : Line := { raw := "this is not json" }

/-- A valid `console` event line. -/
def c7good : Line :=
  { raw := "console-event-line", parsed := some { type := some "console", text := some "hello" } }

/-- A direct-path filesystem whose archive holds one valid `before` event
and an empty network member. -/
def c8fs : TraceFS :=
  { traceMember := [{ raw := "event-line", parsed := some c6before }] }

/-- The TraceDocument produced by the first load over `c8fs`. -/
def c8doc : TraceDoc := (load_trace_data {} c8fs).result.toOption.getD default

/-- A direct-path filesystem whose `trace.trace` member is whitespace-only
(zero events). -/
def c9fs : TraceFS := { traceMember := [{ raw := "   " }] }

/-- A directory path in which the member `trace.zip` exists as a regular
file rather than a directory. -/
def c10fs : TraceFS := { isDir := true, traceZipIsDir := false }

/-! ## Helper lemmas -/

/-- Number of `before` events in a stream. -/
def count_before : List TraceEvent → Nat
  | [] => 0
  | e :: es => (if e.type = some "before" then 1 else 0) + count_before es

theorem step_fold_count (vp : Option Viewport) (es : List TraceEvent) :
    ∀ acc : List Step × Option Step,
      (es.foldl (step_fold vp) acc).1.length + (es.foldl (step_fold vp) acc).2.toList.length =
        acc.1.length + acc.2.toList.length + count_before es := by
  induction es with
  | nil => intro acc; simp [count_before]
  | cons a as ih =>
    intro acc
    rw [List.foldl_cons, ih (step_fold vp acc a), count_before]
    by_cases hb : a.type = some "before"
    · simp only [step_fold, if_pos hb]
      cases acc.2 <;> simp <;> omega
    · by_cases ha : a.type = some "after"
      · cases hc : acc.2 <;> simp only [step_fold, if_neg hb, if_pos ha, hc] <;>
          simp [if_neg hb]
      · simp [step_fold, if_neg hb, if_neg ha]

theorem extract_steps_concat_before (vp : Option Viewport) (es : List TraceEvent)
    (e : TraceEvent) (h : e.type = some "before") :
    ∃ pre : List Step,
      extract_steps vp (es ++ [e]) = pre ++ [mk_step (pre.length + 1) e vp] ∧
        pre.length = count_before es := by
  refine ⟨(es.foldl (step_fold vp) ([], none)).1 ++
    (es.foldl (step_fold vp) ([], none)).2.toList, ?_, ?_⟩
  · simp only [extract_steps, List.foldl_append, List.foldl_cons, List.foldl_nil]
    simp [step_fold, if_pos h]
  · have := step_fold_count vp es ([], none)
    simpa using this

theorem sum_step_durations_error (steps : List Step) :
    ∀ acc : Int, (∃ s ∈ steps, s.timing.duration = none) →
      sum_step_durations acc steps = Except.error "TypeError" := by
  induction steps with
  | nil => intro acc h; simp at h
  | cons s rest ih =>
    intro acc h
    rcases h with ⟨t, ht, hdur⟩
    rcases List.mem_cons.mp ht with rfl | ht'
    · simp [sum_step_durations, hdur]
    · cases hd : t.timing.duration with
      | some d => rw [hd] at hdur; exact absurd hdur (by simp)
      | none =>
        cases hs : s.timing.duration with
        | some d => simpa [sum_step_durations, hs] using ih (acc + d) ⟨t, ht', hdur⟩
        | none => simp [sum_step_durations, hs]

/-! ## Claim theorems -/

/-- Claim C1, counterexample: on the spec's concrete scenario archive the
Basic model reports `failed_actions = 2`, not `1` as the claim states — the
`before` event is itself recorded as a non-successful action. -/
theorem c1_counterexample : ¬ ((analyze_trace c1arch).summary.failed_actions = 1) := by
  decide

/-- Claim C1 (amended): analyzing the scenario archive yields
`total_actions = 3`, `failed_actions = 2` (the `before` action span is never
successful), `total_requests = 2`, `failed_requests = 1`; and an ActionSpan's
`success` is true iff its event has type `after` and no `error` key. -/
theorem c1_basic_scenario (st : PlaywrightTraceState) (e : TraceEvent) (t m : String)
    (p : Params) (h1 : e.type = some t) (h2 : t = "before" ∨ t = "after")
    (h3 : e.method = some m) (h4 : e.params = some p) :
    (analyze_trace c1arch).summary =
      { total_actions := 3, failed_actions := 2, total_requests := 2, failed_requests := 1,
        total_errors := 0, error_summary := "No errors" } ∧
    ∃ a : ActionRecord, process_event st e = { st with actions := st.actions ++ [a] } ∧
      (a.success = true ↔ (t = "after" ∧ e.error = none)) := by
  constructor
  · decide
  · have hmatch : process_event st e = { st with actions := st.actions ++ [{
        type := m
        timestamp := e.timestamp.getD 0
        duration := e.duration.getD 0
        params := p
        success := decide (t = "after") && e.error.isNone
        error := e.error }] } := by
      rcases h2 with rfl | rfl <;> simp [process_event, h1, h3, h4]
    refine ⟨_, hmatch, ?_⟩
    rcases h2 with rfl | rfl <;> simp [Option.isNone_iff_eq_none]

/-- Witness for the amended claim C1, at the scenario's first event. -/
theorem c1_basic_scenario_witness :
    (analyze_trace c1arch).summary =
      { total_actions := 3, failed_actions := 2, total_requests := 2, failed_requests := 1,
        total_errors := 0, error_summary := "No errors" } ∧
    ∃ a : ActionRecord,
      process_event {} c1e1 = { ({} : PlaywrightTraceState) with
        actions := ({} : PlaywrightTraceState).actions ++ [a] } ∧
      (a.success = true ↔ ("before" = "after" ∧ c1e1.error = none)) :=
  c1_basic_scenario {} c1e1 "before" "goto" { url := some "https://example.com" }
    rfl (Or.inl rfl) rfl rfl

/-- Claim C2: with zero steps of known duration, `analyze_timing` divides by
zero when computing `summary.average_step_duration` — the code raises
`ZeroDivisionError` instead of reporting 0 as the spec requires. -/
theorem c2_average_guard_bug (doc : TraceDoc)
    (h : ∀ s ∈ doc.steps, s.timing.duration = none) :
    analyze_timing doc = Except.error "division by zero" := by
  have hf : doc.steps.filter (fun s => s.timing.duration.isSome) = [] :=
    List.filter_eq_nil_iff.mpr (fun s hs => by simp [h s hs])
  simp [analyze_timing, hf]

/-- Witness for claim C2, on a document whose only step is pending. -/
theorem c2_average_guard_bug_witness :
    analyze_timing orphan_doc = Except.error "division by zero" :=
  c2_average_guard_bug orphan_doc (by decide)

/-- Claim C3, counterexample: on a stream with one completed step (duration
100) and one pending step, the code's `action_latency` is 50 (it divides the
sum of known durations by the count of all steps), while the spec's mean of
known durations is 100. -/
theorem c3_counterexample :
    convert_playwright_trace c3events [] = Except.ok c3doc ∧
    c3doc.performance.interaction_timing.action_latency ≠ spec_action_latency c3doc.steps := by
  refine ⟨rfl, ?_⟩
  have h1 : c3doc.steps.filterMap (fun s => s.timing.duration) = [100] := by decide
  have h2 : c3doc.steps.length = 2 := by decide
  have h3 : c3doc.steps.isEmpty = false := by decide
  have hlat : c3doc.performance.interaction_timing.action_latency =
      (if c3doc.steps.isEmpty then (0 : ℚ)
       else (knownDurationSum c3doc.steps : ℚ) / (c3doc.steps.length : ℚ)) := rfl
  have hspec : spec_action_latency c3doc.steps = 100 := by
    rw [spec_action_latency, h1]
    norm_num
  rw [hlat, h3, hspec, knownDurationSum, h1, h2]
  norm_num

/-- Claim C3 (amended): `action_latency` equals the sum of the known step
durations divided by the total number of steps (0 when there are no steps);
it still equals 0 whenever no step has a known duration. -/
theorem c3_action_latency (te ne : List TraceEvent) (doc : TraceDoc)
    (h : convert_playwright_trace te ne = Except.ok doc) :
    doc.performance.interaction_timing.action_latency =
      (if doc.steps.isEmpty then 0
       else (knownDurationSum doc.steps : ℚ) / (doc.steps.length : ℚ)) ∧
    ((∀ s ∈ doc.steps, s.timing.duration = none) →
      doc.performance.interaction_timing.action_latency = 0) := by
  cases hte : te.head? with
  | none => rw [convert_playwright_trace, hte] at h; exact absurd h (by simp)
  | some e0 =>
    rw [convert_playwright_trace, hte] at h
    injection h with h
    subst h
    have hlat : (convert_core e0 te ne).performance.interaction_timing.action_latency =
        (if (convert_core e0 te ne).steps.isEmpty then (0 : ℚ)
         else (knownDurationSum (convert_core e0 te ne).steps : ℚ) /
           ((convert_core e0 te ne).steps.length : ℚ)) := rfl
    refine ⟨hlat, fun hall => ?_⟩
    have hzero : knownDurationSum (convert_core e0 te ne).steps = 0 := by
      rw [knownDurationSum, List.filterMap_eq_nil_iff.mpr hall]; rfl
    rw [hlat, hzero]
    by_cases hemp : (convert_core e0 te ne).steps.isEmpty <;> simp [hemp]

/-- Witness for the amended claim C3, on the `c3events` stream. -/
theorem c3_action_latency_witness :
    c3doc.performance.interaction_timing.action_latency =
      (if c3doc.steps.isEmpty then 0
       else (knownDurationSum c3doc.steps : ℚ) / (c3doc.steps.length : ℚ)) ∧
    ((∀ s ∈ c3doc.steps, s.timing.duration = none) →
      c3doc.performance.interaction_timing.action_latency = 0) :=
  c3_action_latency c3events [] c3doc rfl

/-- Claim C4: on a document containing a step with null (pending) duration,
`analyze_performance` does not treat the missing duration as 0: the stored
value is `None`, so Python's `sum` raises `TypeError` instead of
returning the sum. -/
theorem c4_total_interaction_time_bug (doc : TraceDoc)
    (h : ∃ s ∈ doc.steps, s.timing.duration = none) :
    analyze_performance doc = Except.error "TypeError" := by
  rw [analyze_performance, total_interaction_time, sum_step_durations_error doc.steps 0 h]
  rfl

/-- Witness for claim C4, on the document with a trailing pending step. -/
theorem c4_total_interaction_time_bug_witness :
    analyze_performance c3doc = Except.error "TypeError" :=
  c4_total_interaction_time_bug c3doc (by decide)

/-- Claim C5: the stream `[before(goto, t=0), after(t=100)]` yields exactly
one Step with `timing.end = 100`, `timing.duration = 100` and
`status = "success"`; and in general an `after` event closing an open step
sets the status to `error` exactly when the event carries an `error` key. -/
theorem c5_pairing (vp : Option Viewport) (steps : List Step) (c : Step) (e : TraceEvent)
    (h : e.type = some "after") :
    (convert_playwright_trace c5events []).map
        (fun d => d.steps.map (fun s => (s.timing.end_, s.timing.duration, s.status))) =
      Except.ok [(some 100, some 100, "success")] ∧
    step_fold vp (steps, some c) e = (steps, some (close_step c e)) ∧
    ((close_step c e).status = "error" ↔ e.error.isSome = true) := by
  refine ⟨by decide, ?_, ?_⟩
  · simp [step_fold, h]
  · cases he : e.error <;> simp [close_step, he]

/-- Witness for claim C5, at a concrete open step and `after` event. -/
theorem c5_pairing_witness :
    (convert_playwright_trace c5events []).map
        (fun d => d.steps.map (fun s => (s.timing.end_, s.timing.duration, s.status))) =
      Except.ok [(some 100, some 100, "success")] ∧
    step_fold none ([], some sample_step) c5after =
      ([], some (close_step sample_step c5after)) ∧
    ((close_step sample_step c5after).status = "error" ↔ c5after.error.isSome = true) :=
  c5_pairing none [] sample_step c5after rfl

/-- Claim C6: for every stream ending in a `before` event, the opened step
is still pushed to the output (the step count includes it), with a null
`end`, a null `duration`, and status `pending`. -/
theorem c6_orphan_preserved (es ne : List TraceEvent) (e : TraceEvent)
    (h : e.type = some "before") :
    ∃ doc, convert_playwright_trace (es ++ [e]) ne = Except.ok doc ∧
      doc.steps.length = count_before es + 1 ∧
      ∃ s, doc.steps.getLast? = some s ∧
        s.timing.end_ = none ∧ s.timing.duration = none ∧ s.status = "pending" := by
  obtain ⟨e0, he0⟩ : ∃ e0, (es ++ [e]).head? = some e0 := by
    cases es <;> exact ⟨_, rfl⟩
  refine ⟨convert_core e0 (es ++ [e]) ne, ?_, ?_, ?_⟩
  · rw [convert_playwright_trace, he0]
  · have hsteps : (convert_core e0 (es ++ [e]) ne).steps =
        extract_steps (convert_core e0 (es ++ [e]) ne).metadata.browser_info.viewport
          (es ++ [e]) := rfl
    obtain ⟨pre, hpre, hlen⟩ := extract_steps_concat_before
      ((convert_core e0 (es ++ [e]) ne).metadata.browser_info.viewport) es e h
    rw [hsteps, hpre]
    simp [hlen]
  · have hsteps : (convert_core e0 (es ++ [e]) ne).steps =
        extract_steps (convert_core e0 (es ++ [e]) ne).metadata.browser_info.viewport
          (es ++ [e]) := rfl
    obtain ⟨pre, hpre, hlen⟩ := extract_steps_concat_before
      ((convert_core e0 (es ++ [e]) ne).metadata.browser_info.viewport) es e h
    refine ⟨mk_step (pre.length + 1) e
      ((convert_core e0 (es ++ [e]) ne).metadata.browser_info.viewport), ?_, rfl, rfl, rfl⟩
    rw [hsteps, hpre, List.getLast?_concat]

/-- Witness for claim C6: a one-event stream holding only a `before`. -/
theorem c6_orphan_preserved_witness :
    ∃ doc, convert_playwright_trace ([] ++ [c6before]) [] = Except.ok doc ∧
      doc.steps.length = count_before [] + 1 ∧
      ∃ s, doc.steps.getLast? = some s ∧
        s.timing.end_ = none ∧ s.timing.duration = none ∧ s.status = "pending" :=
  c6_orphan_preserved [] [] c6before rfl

/-- Claim C7: a non-blank line that fails JSON decoding appends exactly one
entry `Failed to parse trace event: <line>` to the error log and parsing
continues with the remaining lines; concretely, a corrupt line followed by a
valid console event still yields that console-log entry. -/
theorem c7_line_resilience (st : PlaywrightTraceState) (l : Line) (rest : List Line)
    (h1 : is_blank l.raw = false) (h2 : l.parsed = none) :
    parse_lines st (l :: rest) =
      parse_lines
        { st with errors := st.errors ++ ["Failed to parse trace event: " ++ l.raw] } rest ∧
    (parse_lines {} [c7bad, c7good]).errors =
      ["Failed to parse trace event: this is not json"] ∧
    (parse_lines {} [c7bad, c7good]).console_logs = ["hello"] := by
  refine ⟨?_, by decide, by decide⟩
  simp [parse_lines, parse_line, h1, h2]

/-- Witness for claim C7: the corrupt line followed by the console line. -/
theorem c7_line_resilience_witness :
    parse_lines {} (c7bad :: [c7good]) =
      parse_lines
        { ({} : PlaywrightTraceState) with
          errors := ({} : PlaywrightTraceState).errors ++
            ["Failed to parse trace event: " ++ c7bad.raw] } [c7good] ∧
    (parse_lines {} [c7bad, c7good]).errors =
      ["Failed to parse trace event: this is not json"] ∧
    (parse_lines {} [c7bad, c7good]).console_logs = ["hello"] :=
  c7_line_resilience {} c7bad [c7good] (by decide) rfl

/-- Claim C8: when the first load over a fresh analyzer succeeds, it read
the archive exactly once and cached the document; a second load on the
resulting state returns the identical document with zero archive reads. -/
theorem c8_load_memoized (fs : TraceFS) (d : TraceDoc) (a1 : AnalyzerState) (n : Nat)
    (h : load_trace_data { trace_data := none } fs =
      { result := Except.ok d, state := a1, reads := n }) :
    n = 1 ∧ a1 = { trace_data := some d } ∧
      load_trace_data a1 fs = { result := Except.ok d, state := a1, reads := 0 } := by
  simp only [load_trace_data] at h
  split at h
  · simp only [LoadResult.mk.injEq] at h
    exact absurd h.1 (by simp)
  · split at h
    · simp only [LoadResult.mk.injEq] at h
      exact absurd h.1 (by simp)
    · split at h
      · simp only [LoadResult.mk.injEq] at h
        exact absurd h.1 (by simp)
      · split at h
        · simp only [LoadResult.mk.injEq] at h
          exact absurd h.1 (by simp)
        · simp only [LoadResult.mk.injEq, Except.ok.injEq] at h
          obtain ⟨hd, ha, hn⟩ := h
          subst hd
          subst ha
          subst hn
          exact ⟨rfl, rfl, rfl⟩

/-- Witness for claim C8, over a one-event archive. -/
theorem c8_load_memoized_witness :
    (1 : Nat) = 1 ∧
    ({ trace_data := some c8doc } : AnalyzerState) = { trace_data := some c8doc } ∧
    load_trace_data { trace_data := some c8doc } c8fs =
      { result := Except.ok c8doc, state := { trace_data := some c8doc }, reads := 0 } :=
  c8_load_memoized c8fs c8doc { trace_data := some c8doc } 1 rfl

/-- Claim C9: on an archive whose `trace.trace` member decodes to zero
events, loading fails with a ValueError wrapping the underlying
`IndexError` from the metadata derivation, the cache stays empty, and a
repeated load (as every analytical projection performs) fails the same
way. -/
theorem c9_empty_stream (fs : TraceFS) (nw : List TraceEvent)
    (h1 : fs.isDir = false)
    (h2 : read_trace_events fs.traceMember = Except.ok [])
    (h3 : read_trace_events fs.networkMember = Except.ok nw) :
    load_trace_data { trace_data := none } fs =
      { result := Except.error ("Failed to load trace data: " ++ "list index out of range"),
        state := { trace_data := none }, reads := 1 } ∧
    load_trace_data (load_trace_data { trace_data := none } fs).state fs =
      { result := Except.error ("Failed to load trace data: " ++ "list index out of range"),
        state := { trace_data := none }, reads := 1 } := by
  have hmain : load_trace_data { trace_data := none } fs =
      { result := Except.error ("Failed to load trace data: " ++ "list index out of range"),
        state := { trace_data := none }, reads := 1 } := by
    simp [load_trace_data, resolve_trace_path, h1, h2, h3, convert_playwright_trace]
  refine ⟨hmain, ?_⟩
  rw [hmain]
  exact hmain

/-- Witness for claim C9: a whitespace-only `trace.trace` member. -/
theorem c9_empty_stream_witness :
    load_trace_data { trace_data := none } c9fs =
      { result := Except.error ("Failed to load trace data: " ++ "list index out of range"),
        state := { trace_data := none }, reads := 1 } ∧
    load_trace_data (load_trace_data { trace_data := none } c9fs).state c9fs =
      { result := Except.error ("Failed to load trace data: " ++ "list index out of range"),
        state := { trace_data := none }, reads := 1 } :=
  c9_empty_stream c9fs [] rfl (by decide) rfl

/-- Claim C10: when the trace path is a directory whose member `trace.zip`
exists as a regular file (not a directory), loading fails with a ValueError
whose message contains `Invalid trace directory structure`; the nested
resolution succeeds exactly when `trace.zip` is a directory holding at
least one `*.zip` file, in which case the first one is used. -/
theorem c10_trace_zip_regular_file (fs : TraceFS)
    (h1 : fs.isDir = true) (h2 : fs.traceZipIsDir = false) :
    (load_trace_data { trace_data := none } fs).result =
      Except.error ("Failed to load trace data: " ++ "Invalid trace directory structure") ∧
    (∀ (b : Bool) (zips : List String) (path : String),
      (∃ z, resolve_trace_path true b zips path = Except.ok z) ↔ (b = true ∧ zips ≠ [])) ∧
    (∀ (z : String) (zips : List String) (path : String),
      resolve_trace_path true true (z :: zips) path = Except.ok z) := by
  refine ⟨?_, ?_, ?_⟩
  · simp [load_trace_data, resolve_trace_path, h1, h2]
  · intro b zips path
    cases b <;> cases zips <;> simp [resolve_trace_path]
  · intro z zips path
    rfl

/-- Witness for claim C10: `trace.zip` present as a regular file. -/
theorem c10_trace_zip_regular_file_witness :
    (load_trace_data { trace_data := none } c10fs).result =
      Except.error ("Failed to load trace data: " ++ "Invalid trace directory structure") ∧
    (∀ (b : Bool) (zips : List String) (path : String),
      (∃ z, resolve_trace_path true b zips path = Except.ok z) ↔ (b = true ∧ zips ≠ [])) ∧
    (∀ (z : String) (zips : List String) (path : String),
      resolve_trace_path true true (z :: zips) path = Except.ok z) :=
  c10_trace_zip_regular_file c10fs rfl rfl

end BrowserUseTrace
